import Mathlib

/-!
Verification of the Engine.IO async session orchestrator
(`engineio/src/asynchronous/async_socket.rs`).

The socket is embedded shallowly: the shared atomics (`connected`,
`last_ping`, `last_pong`) and the fixed `max_ping_timeout` become a
`SocketState` record; each async method becomes a pure function from a
state (plus the explicit inputs the real code obtains from the
environment: the current time, the transport's send outcome, the packet
codec) to an `OpResult` recording the next state, the returned
`Result`, the callback dispatches spawned on the runtime handle, and
the frames handed to the transport.  Machine integers (`u64`) are `Nat`
with explicit wrapping where the source subtracts.
-/

namespace Engineio

/-- The closed enumeration of packet kinds (`PacketId` in `packet.rs`). -/
inductive PacketId
  | Open
  | Close
  | Ping
  | Pong
  | Message
  | MessageBinary
  | Upgrade
  | Noop
deriving DecidableEq, Repr

/-- A protocol packet: a kind and a byte body (`Packet { packet_id, data }`).
Bytes are modelled as `List Nat`. -/
structure Packet where
  packet_id : PacketId
  data : List Nat
deriving DecidableEq, Repr

/-- The error variants of `crate::Error` that the session code under
verification can produce or propagate.  Transport-level failures carry
their display message. -/
inductive Error
  | IllegalActionBeforeOpen
  | PingTimeout
  | InvalidPacket
  | IncompletePacket
  | Transport (msg : String)
deriving DecidableEq, Repr

/-- Modelled from the spec: the display rendering of an error
(`error.rs` is outside the provided sources).  `emit` reports
`format!("{}", error)` / `error.to_string()` to the on-error callback;
only the correspondence error-to-its-message matters for the claims,
so each variant is given a fixed distinct string and a transport error
displays its carried message. -/
def Error.message : Error → String
  | .IllegalActionBeforeOpen => "An illegal action (such as closing before connecting) was triggered"
  | .PingTimeout => "Did not receive a ping from the server in time"
  | .InvalidPacket => "Got an invalid packet which did not follow the protocol format"
  | .IncompletePacket => "The packet to be parsed was incomplete"
  | .Transport m => m

/-- A callback dispatch spawned on the runtime handle
(`self.handle.spawn(async move { cb(..) })`): which of the five
optional callbacks fired and with which argument. -/
inductive Event
  | onOpen
  | onClose
  | onData (d : List Nat)
  | onError (msg : String)
  | onPacket (p : Packet)
deriving DecidableEq, Repr

/-- The packet codec boundary (external collaborator, `packet.rs`):
`encodePacket` is `Packet::into::<Bytes>()` (full framed encoding of a
non-binary packet); `decodePayload` is `Payload::try_from(bytes)`
followed by iteration over the contained packets. -/
structure Codec where
  encodePacket : Packet → List Nat
  decodePayload : List Nat → Except Error (List Packet)

/-- The transport boundary's send operation
(`transport.emit(data, is_binary)`): given the frame bytes and the
binary flag, `none` means the send succeeded, `some e` that it failed
with error `e`. -/
abbrev SendFn := List Nat → Bool → Option Error

/-- The mutable state of a `Socket`: the `connected` flag
(`AtomicBool`), the heartbeat timestamps (`AtomicU64`, seconds since
the epoch), and the fixed `max_ping_timeout`. -/
structure SocketState where
  connected : Bool
  last_ping : Nat
  last_pong : Nat
  max_ping_timeout : Nat
deriving DecidableEq, Repr

/-- The handshake snapshot (`HandshakePacket`) captured at
construction; the fields the constructor could consult. -/
structure HandshakePacket where
  sid : String
  upgrades : List String
  ping_interval : Nat
  ping_timeout : Nat
deriving DecidableEq, Repr

/-- The observable outcome of one orchestrator operation: the state
after it, the `Result` it returns, the callback dispatches it spawned
(in spawn order), and the frames it handed to the transport's `emit`
(in send order, with the `is_binary` flag). -/
structure OpResult where
  state : SocketState
  result : Except Error Unit
  events : List Event
  frames : List (List Nat × Bool)
deriving Repr

namespace Socket

/-- `Socket::new`: `max_ping_timeout` is the literal `10` (the
derivation from the handshake on line 54 is commented out);
`last_ping` and `last_pong` start at `current_time_in_seconds()`,
`connected` at `AtomicBool::default()` (false).  The handshake is
stored but its ping fields are never read. -/
def new (_handshake : HandshakePacket) (now : Nat) : SocketState :=
  { connected := false
    last_ping := now
    last_pong := now
    max_ping_timeout := 10 }

/-- `Socket::is_connected`: loads the `connected` flag. -/
def is_connected (s : SocketState) : Bool :=
  s.connected

/-- `Socket::emit`: if not connected, reports
`IllegalActionBeforeOpen` to on-error and returns it without touching
the transport.  Otherwise a binary packet sends its raw payload and
any other packet its full framed encoding; the frame goes to the
transport under the lock, a send failure is reported to on-error and
returned, and the state is never modified. -/
def emit (c : Codec) (send : SendFn) (s : SocketState) (p : Packet) : OpResult :=
  if !s.connected then
    { state := s
      result := .error .IllegalActionBeforeOpen
      events := [.onError Error.IllegalActionBeforeOpen.message]
      frames := [] }
  else
    let is_binary : Bool := p.packet_id = PacketId.MessageBinary
    let data : List Nat := if is_binary then p.data else c.encodePacket p
    match send data is_binary with
    | some e =>
        { state := s
          result := .error e
          events := [.onError e.message]
          frames := [(data, is_binary)] }
    | none =>
        { state := s
          result := .ok ()
          events := []
          frames := [(data, is_binary)] }

/-- `Socket::connect`: stores `connected := true`, spawns on-open,
stores `last_ping := now`, then emits an empty Pong via `emit` and
propagates its result with `?`. -/
def connect (c : Codec) (send : SendFn) (now : Nat) (s : SocketState) : OpResult :=
  let s1 : SocketState := { s with connected := true }
  let s2 : SocketState := { s1 with last_ping := now }
  let r := emit c send s2 (Packet.mk PacketId.Pong [])
  { r with events := Event.onOpen :: r.events }

/-- `Socket::disconnect`: spawns on-close, then
`emit(Close, empty)?` — on emit failure the `?` returns early and the
`connected.store(false)` on line 270 is skipped; only on success is
the flag cleared. -/
def disconnect (c : Codec) (send : SendFn) (s : SocketState) : OpResult :=
  let r := emit c send s (Packet.mk PacketId.Close [])
  match r.result with
  | .error e =>
      { state := r.state
        result := .error e
        events := Event.onClose :: r.events
        frames := r.frames }
  | .ok _ =>
      { state := { r.state with connected := false }
        result := .ok ()
        events := Event.onClose :: r.events
        frames := r.frames }

/-- `Socket::pinged`: stores `last_ping := current_time_in_seconds()`. -/
def pinged (now : Nat) (s : SocketState) : SocketState :=
  { s with last_ping := now }

/-- `Socket::handle_close`: spawns on-close and stores
`connected := false`. -/
def handle_close (s : SocketState) : SocketState :=
  { s with connected := false }

/-- `Socket::handle_incoming_packet`: forwards every packet to
on-packet first (`handle_packet`), then routes by kind: messages to
on-data; `Close` to `handle_close`; `Upgrade` and `Noop` do nothing;
`Ping` runs `pinged` then emits an empty Pong (propagated with `?`);
`Pong | Open` return `InvalidPacket`. -/
def handle_incoming_packet (c : Codec) (send : SendFn) (now : Nat)
    (s : SocketState) (p : Packet) : OpResult :=
  match p.packet_id with
  | PacketId.MessageBinary =>
      { state := s, result := .ok ()
        events := [.onPacket p, .onData p.data], frames := [] }
  | PacketId.Message =>
      { state := s, result := .ok ()
        events := [.onPacket p, .onData p.data], frames := [] }
  | PacketId.Close =>
      { state := handle_close s, result := .ok ()
        events := [.onPacket p, .onClose], frames := [] }
  | PacketId.Upgrade =>
      { state := s, result := .ok (), events := [.onPacket p], frames := [] }
  | PacketId.Ping =>
      let s1 := pinged now s
      let r := emit c send s1 (Packet.mk PacketId.Pong [])
      { r with events := Event.onPacket p :: r.events }
  | PacketId.Pong =>
      { state := s, result := .error .InvalidPacket
        events := [.onPacket p], frames := [] }
  | PacketId.Open =>
      { state := s, result := .error .InvalidPacket
        events := [.onPacket p], frames := [] }
  | PacketId.Noop =>
      { state := s, result := .ok (), events := [.onPacket p], frames := [] }

end Socket

/-- The `u64` modulus. -/
def U64 : Nat := 2 ^ 64

/-- Subtraction on `u64` values as release-mode Rust computes it
(two's-complement wrap); for `b ≤ a < 2^64` it agrees with plain
subtraction. -/
def u64_sub (a b : Nat) : Nat :=
  (a + U64 - b) % U64

theorem u64_sub_eq {a b : Nat} (hba : b ≤ a) (ha : a < U64) :
    u64_sub a b = a - b := by
  unfold u64_sub
  have h1 : a + U64 - b = (a - b) + U64 := by omega
  rw [h1, Nat.add_mod_right]
  exact Nat.mod_eq_of_lt (by omega)

namespace Socket

/-- `Socket::time_to_next_ping`: `since_last_ping` is the `u64`
difference `current_time - last_ping`; the result is `0` once that
exceeds `max_ping_timeout`, and `max_ping_timeout - since_last_ping`
otherwise. -/
def time_to_next_ping (now last_ping max_ping_timeout : Nat) : Nat :=
  let since_last_ping := u64_sub now last_ping
  if since_last_ping > max_ping_timeout then 0
  else u64_sub max_ping_timeout since_last_ping

/-- `Socket::parse_payload`: `Payload::try_from(bytes)?` then yield
each contained packet; a decode failure is yielded as the single
(terminal) item of the inner stream. -/
def parse_payload (c : Codec) (bytes : List Nat) : List (Except Error Packet) :=
  match c.decodePayload bytes with
  | .error e => [.error e]
  | .ok ps => ps.map Except.ok

/-- `Socket::stream`: for each payload of the transport (`payload?`
terminates the stream on a transport error), iterate
`parse_payload` and `yield packet?` — the packets of a payload are
yielded in decode order before the next payload is pulled, and the
error item `parse_payload` ends with on a decode failure terminates
the whole stream. -/
def stream (c : Codec) : List (Except Error (List Nat)) → List (Except Error Packet)
  | [] => []
  | Except.error e :: _ => [Except.error e]
  | Except.ok bytes :: rest =>
    match c.decodePayload bytes with
    | Except.error e => [Except.error e]
    | Except.ok ps => ps.map Except.ok ++ stream c rest

/-- The packet sequence the `Socket` exposes to its caller:
`Socket::new` wires `generator := StreamGenerator::new(Self::stream(transport))`
— `Self::stream` directly, not wrapped in `enforce_timeout` — and
`poll_next` forwards the generator's items unchanged (its timeout
handling is commented out), so the exposed sequence is exactly
`Socket::stream`. -/
def exposed_stream (c : Codec) (payloads : List (Except Error (List Nat))) :
    List (Except Error Packet) :=
  stream c payloads

end Socket

/-- The outcome of the race inside one `enforce_timeout` unfold step:
either the upstream `stream.next()` resolved within the deadline
(`upstream`, with `none` meaning the upstream stream ended), or the
`tokio::time::timeout` elapsed first. -/
inductive RaceOutcome
  | upstream (item : Option (Except Error Packet))
  | elapsed
deriving Repr

/-- What one `enforce_timeout` unfold step produces: the item yielded
(`none` ends the stream), the value of the shared `connected` flag
afterwards, and the callback dispatches spawned. -/
structure TimeoutStep where
  yielded : Option (Except Error Packet)
  connected : Bool
  events : List Event
deriving Repr

namespace Socket

/-- One step of `Socket::enforce_timeout`'s unfold body: an upstream
item (or upstream end) within the deadline is forwarded unchanged; an
elapsed timeout stores `connected := false`, spawns on-close, and
yields `Err(PingTimeout)`.  (This combinator is defined in the source
but never applied: `Socket::new` does not wrap the generator with it.) -/
def enforce_timeout_step (connected : Bool) (o : RaceOutcome) : TimeoutStep :=
  match o with
  | .upstream none => { yielded := none, connected := connected, events := [] }
  | .upstream (some r) => { yielded := some r, connected := connected, events := [] }
  | .elapsed =>
      { yielded := some (.error .PingTimeout)
        connected := false
        events := [.onClose] }

end Socket

/-! Concrete instances used by closed statements (witnesses and
counterexamples). -/

/-- A concrete codec: the frame of a packet is a kind tag followed by
its body, a payload decodes to one Message packet carrying the bytes. -/
def codec0 : Codec where
  encodePacket p := (match p.packet_id with
    | .Open => 0 | .Close => 1 | .Ping => 2 | .Pong => 3
    | .Message => 4 | .MessageBinary => 5 | .Upgrade => 6 | .Noop => 7) :: p.data
  decodePayload bytes := .ok [Packet.mk PacketId.Message bytes]

/-- A transport whose sends always succeed. -/
def sendOk : SendFn := fun _ _ => none

/-- A transport whose sends always fail. -/
def sendFail : SendFn := fun _ _ => some (Error.Transport "transport down")

/-- A connected session state. -/
def s_conn : SocketState :=
  { connected := true, last_ping := 100, last_pong := 100, max_ping_timeout := 10 }

/-- A disconnected session state. -/
def s_disc : SocketState :=
  { connected := false, last_ping := 100, last_pong := 100, max_ping_timeout := 10 }

/-- The frame `emit` builds for packet `p` before taking the transport
lock: the raw payload with the binary flag for a `MessageBinary`
packet, the full framed encoding otherwise. -/
def Socket.frame_of (c : Codec) (p : Packet) : List Nat × Bool :=
  let is_binary : Bool := p.packet_id = PacketId.MessageBinary
  (if is_binary then p.data else c.encodePacket p, is_binary)

theorem Socket.emit_connected (c : Codec) (send : SendFn) (s : SocketState) (p : Packet)
    (hc : s.connected = true) :
    Socket.emit c send s p =
      match send (Socket.frame_of c p).1 (Socket.frame_of c p).2 with
      | some e =>
          { state := s, result := .error e
            events := [.onError e.message], frames := [Socket.frame_of c p] }
      | none =>
          { state := s, result := .ok ()
            events := [], frames := [Socket.frame_of c p] } := by
  simp only [Socket.emit, Socket.frame_of, hc, Bool.not_true, Bool.false_eq_true, if_false]

/-- Claim C2: `emit` while not connected fails immediately with
`IllegalActionBeforeOpen`, hands nothing to the transport, and spawns
on-error with that error's message. -/
theorem emit_before_open_fails (c : Codec) (send : SendFn) (s : SocketState) (p : Packet)
    (h : s.connected = false) :
    Socket.emit c send s p =
      { state := s
        result := Except.error Error.IllegalActionBeforeOpen
        events := [Event.onError Error.IllegalActionBeforeOpen.message]
        frames := [] } := by
  simp [Socket.emit, h]

/-- Witness for C2 at a concrete disconnected state and packet. -/
theorem emit_before_open_fails_witness :
    Socket.emit codec0 sendOk s_disc (Packet.mk PacketId.Message [120]) =
      { state := s_disc
        result := Except.error Error.IllegalActionBeforeOpen
        events := [Event.onError Error.IllegalActionBeforeOpen.message]
        frames := [] } :=
  emit_before_open_fails codec0 sendOk s_disc (Packet.mk PacketId.Message [120]) rfl

/-- Claim C3: `connect` leaves the state connected with
`last_ping = now`, dispatches on-open first, hands exactly one frame to
the transport — the framed empty Pong — and returns the send's
outcome; on a failed send the state is still connected. -/
theorem connect_single_pong (c : Codec) (send : SendFn) (now : Nat) (s : SocketState) :
    (Socket.connect c send now s).state.connected = true ∧
    (Socket.connect c send now s).state.last_ping = now ∧
    (Socket.connect c send now s).frames =
      [(c.encodePacket (Packet.mk PacketId.Pong []), false)] ∧
    (Socket.connect c send now s).events.head? = some Event.onOpen ∧
    (Socket.connect c send now s).result =
      (match send (c.encodePacket (Packet.mk PacketId.Pong [])) false with
       | none => Except.ok ()
       | some e => Except.error e) := by
  cases h : send (c.encodePacket (Packet.mk PacketId.Pong [])) false <;>
    simp [Socket.connect, Socket.emit, h]

/-- Claim C4: a transport failure inside a connected `emit` is returned
to the caller, reported to on-error with its message, and the state —
in particular the connected flag — is unchanged. -/
theorem emit_send_failure_preserves_state (c : Codec) (send : SendFn) (s : SocketState)
    (p : Packet) (e : Error)
    (hc : s.connected = true)
    (hf : send (Socket.frame_of c p).1 (Socket.frame_of c p).2 = some e) :
    Socket.emit c send s p =
      { state := s
        result := Except.error e
        events := [Event.onError e.message]
        frames := [Socket.frame_of c p] } := by
  rw [Socket.emit_connected c send s p hc, hf]

/-- Witness for C4 at a concrete connected state and failing transport. -/
theorem emit_send_failure_preserves_state_witness :
    Socket.emit codec0 sendFail s_conn (Packet.mk PacketId.Message [120]) =
      { state := s_conn
        result := Except.error (Error.Transport "transport down")
        events := [Event.onError "transport down"]
        frames := [Socket.frame_of codec0 (Packet.mk PacketId.Message [120])] } :=
  emit_send_failure_preserves_state codec0 sendFail s_conn
    (Packet.mk PacketId.Message [120]) (Error.Transport "transport down") rfl rfl

/-- Counterexample to claim C5 as stated: with a failing transport,
`disconnect` on a connected session leaves `connected = true` (the `?`
on the Close emit skips the `store(false)`), and on an
already-disconnected session no Close frame reaches the transport at
all (`emit` fails fast before touching it). -/
theorem disconnect_claim_counterexample :
    (Socket.disconnect codec0 sendFail s_conn).state.connected = true ∧
    (Socket.disconnect codec0 sendFail s_conn).result =
      Except.error (Error.Transport "transport down") ∧
    (Socket.disconnect codec0 sendFail s_disc).frames = [] :=
  ⟨rfl, rfl, rfl⟩

/-- Claim C5 as amended: `disconnect` always dispatches on-close first
and attempts the Close emit, but the state is set to `Disconnected`
only when that emit succeeds; on emit failure the error is returned and
the state is unchanged, and on an already-disconnected session the emit
fails fast with `IllegalActionBeforeOpen` without touching the
transport, leaving the state disconnected. -/
theorem disconnect_amended_behavior (c : Codec) (send : SendFn) (s : SocketState) :
    (Socket.disconnect c send s).events.head? = some Event.onClose ∧
    ((Socket.disconnect c send s).result = Except.ok () →
      (Socket.disconnect c send s).state.connected = false) ∧
    (∀ e, (Socket.disconnect c send s).result = Except.error e →
      (Socket.disconnect c send s).state = s) ∧
    (s.connected = false →
      (Socket.disconnect c send s).frames = [] ∧
      (Socket.disconnect c send s).result = Except.error Error.IllegalActionBeforeOpen ∧
      (Socket.disconnect c send s).state.connected = false) := by
  by_cases hc : s.connected = true
  · rw [Socket.disconnect, Socket.emit_connected c send s _ hc]
    cases h : send (Socket.frame_of c (Packet.mk PacketId.Close [])).1
        (Socket.frame_of c (Packet.mk PacketId.Close [])).2 <;>
      simp [hc]
  · have hc' : s.connected = false := by simpa using hc
    rw [Socket.disconnect, emit_before_open_fails c send s _ hc']
    simp [hc']

/-- Witness for C5's amended claim: a successful Close emit does clear
the connected flag. -/
theorem disconnect_amended_behavior_witness :
    (Socket.disconnect codec0 sendOk s_conn).state.connected = false :=
  (disconnect_amended_behavior codec0 sendOk s_conn).2.1 rfl

end Engineio

namespace Engineio

theorem time_to_next_ping_fresh {now m : Nat} (hn : now < U64) (hm : m < U64) :
    Socket.time_to_next_ping now now m = m := by
  have h0 : u64_sub now now = 0 := by
    rw [u64_sub_eq le_rfl hn]; omega
  simp only [Socket.time_to_next_ping, h0]
  rw [if_neg (by omega)]
  rw [u64_sub_eq (Nat.zero_le m) hm]
  omega

/-- Claim C6: dispatching an incoming Ping on a connected session sets
`last_ping` to the receipt time, hands exactly one frame to the
transport — the framed empty Pong — and the remaining time until
timeout, recomputed at the receipt time from the updated state, is the
full `max_ping_timeout` again. -/
theorem ping_resets_deadline (c : Codec) (send : SendFn) (now : Nat)
    (s : SocketState) (p : Packet)
    (hc : s.connected = true) (hp : p.packet_id = PacketId.Ping)
    (hn : now < U64) (hm : s.max_ping_timeout < U64) :
    (Socket.handle_incoming_packet c send now s p).state.last_ping = now ∧
    (Socket.handle_incoming_packet c send now s p).state.max_ping_timeout =
      s.max_ping_timeout ∧
    (Socket.handle_incoming_packet c send now s p).frames =
      [(c.encodePacket (Packet.mk PacketId.Pong []), false)] ∧
    Socket.time_to_next_ping now
      (Socket.handle_incoming_packet c send now s p).state.last_ping
      (Socket.handle_incoming_packet c send now s p).state.max_ping_timeout
      = s.max_ping_timeout := by
  have hr : Socket.handle_incoming_packet c send now s p =
      { (Socket.emit c send (Socket.pinged now s) (Packet.mk PacketId.Pong [])) with
        events := Event.onPacket p ::
          (Socket.emit c send (Socket.pinged now s) (Packet.mk PacketId.Pong [])).events } := by
    simp [Socket.handle_incoming_packet, hp]
  have hc' : (Socket.pinged now s).connected = true := hc
  rw [hr, Socket.emit_connected c send (Socket.pinged now s) _ hc']
  cases h : send (Socket.frame_of c (Packet.mk PacketId.Pong [])).1
      (Socket.frame_of c (Packet.mk PacketId.Pong [])).2 <;>
    simp [Socket.pinged, Socket.frame_of, time_to_next_ping_fresh hn hm,
      ← h, Socket.frame_of]

/-- Witness for C6: a Ping received at time 107 on a connected session. -/
theorem ping_resets_deadline_witness :
    (Socket.handle_incoming_packet codec0 sendOk 107 s_conn
        (Packet.mk PacketId.Ping [])).state.last_ping = 107 ∧
    (Socket.handle_incoming_packet codec0 sendOk 107 s_conn
        (Packet.mk PacketId.Ping [])).state.max_ping_timeout = 10 ∧
    (Socket.handle_incoming_packet codec0 sendOk 107 s_conn
        (Packet.mk PacketId.Ping [])).frames =
      [(codec0.encodePacket (Packet.mk PacketId.Pong []), false)] ∧
    Socket.time_to_next_ping 107
      (Socket.handle_incoming_packet codec0 sendOk 107 s_conn
        (Packet.mk PacketId.Ping [])).state.last_ping
      (Socket.handle_incoming_packet codec0 sendOk 107 s_conn
        (Packet.mk PacketId.Ping [])).state.max_ping_timeout = 10 :=
  ping_resets_deadline codec0 sendOk 107 s_conn (Packet.mk PacketId.Ping [])
    rfl rfl (by decide) (by decide)

/-- Claim C7: the packet stream pipeline yields, for each successfully
decoded payload, exactly its packets in decoder order before moving to
the next payload, and a payload whose decode fails terminates the
sequence with that error. -/
theorem pipeline_yields_in_order (c : Codec) :
    (∀ (bs : List (List Nat)) (ls : List (List Packet)),
      List.Forall₂ (fun b l => c.decodePayload b = Except.ok l) bs ls →
      Socket.stream c (bs.map Except.ok) = ls.flatten.map Except.ok) ∧
    (∀ (b : List Nat) (e : Error) (rest : List (Except Error (List Nat))),
      c.decodePayload b = Except.error e →
      Socket.stream c (Except.ok b :: rest) = [Except.error e]) := by
  constructor
  · intro bs ls h
    induction h with
    | nil => rfl
    | cons hd _ ih =>
        simp [Socket.stream, hd, ih]
  · intro b e rest h
    simp [Socket.stream, h]

/-- Witness for C7 at two concrete payloads under `codec0`. -/
theorem pipeline_yields_in_order_witness :
    Socket.stream codec0 ([[1, 2], [3]].map Except.ok) =
      ([[Packet.mk PacketId.Message [1, 2]],
        [Packet.mk PacketId.Message [3]]].flatten.map Except.ok) :=
  (pipeline_yields_in_order codec0).1 [[1, 2], [3]]
    [[Packet.mk PacketId.Message [1, 2]], [Packet.mk PacketId.Message [3]]]
    (List.Forall₂.cons rfl (List.Forall₂.cons rfl List.Forall₂.nil))

/-- Claim C8: for `last_ping ≤ now` within `u64` range, the computed
time to the next ping equals `max 0 (max_ping_timeout - (now - last_ping))`
over the integers, with no underflow. -/
theorem time_to_next_ping_spec (now last maxt : Nat)
    (h1 : last ≤ now) (h2 : now < U64) (h3 : maxt < U64) :
    (Socket.time_to_next_ping now last maxt : Int) =
      max 0 ((maxt : Int) - ((now : Int) - (last : Int))) := by
  have hs : u64_sub now last = now - last := u64_sub_eq h1 h2
  by_cases hgt : now - last > maxt
  · simp only [Socket.time_to_next_ping, hs, if_pos hgt]
    rw [eq_comm, max_eq_left (by omega)]
    rfl
  · simp only [Socket.time_to_next_ping, hs, if_neg hgt]
    rw [u64_sub_eq (by omega) h3, max_eq_right (by omega)]
    omega

/-- Witness for C8: 7 seconds after the last ping with a 10 second
budget, 3 seconds remain. -/
theorem time_to_next_ping_spec_witness :
    (Socket.time_to_next_ping 107 100 10 : Int) =
      max 0 ((10 : Int) - ((107 : Int) - (100 : Int))) :=
  time_to_next_ping_spec 107 100 10 (by decide) (by decide) (by decide)

/-- Claim C9: dispatching an incoming Pong or Open packet returns
`InvalidPacket`, leaves the state (hence the connected flag) untouched,
sends nothing, and spawns only the unconditional on-packet dispatch. -/
theorem pong_open_rejected (c : Codec) (send : SendFn) (now : Nat)
    (s : SocketState) (p : Packet)
    (h : p.packet_id = PacketId.Pong ∨ p.packet_id = PacketId.Open) :
    Socket.handle_incoming_packet c send now s p =
      { state := s
        result := Except.error Error.InvalidPacket
        events := [Event.onPacket p]
        frames := [] } := by
  rcases h with h | h <;> simp [Socket.handle_incoming_packet, h]

/-- Witness for C9 at a concrete inbound Pong. -/
theorem pong_open_rejected_witness :
    Socket.handle_incoming_packet codec0 sendOk 5 s_conn (Packet.mk PacketId.Pong []) =
      { state := s_conn
        result := Except.error Error.InvalidPacket
        events := [Event.onPacket (Packet.mk PacketId.Pong [])]
        frames := [] } :=
  pong_open_rejected codec0 sendOk 5 s_conn (Packet.mk PacketId.Pong []) (Or.inl rfl)

/-- Claim C10: whatever the handshake advertises, the constructed
session's `max_ping_timeout` is the constant 10, so every deadline
computation behaves as with the literal 10. -/
theorem max_ping_timeout_is_ten (hs : HandshakePacket) (now : Nat) :
    (Socket.new hs now).max_ping_timeout = 10 ∧
    (∀ hs2 : HandshakePacket,
      (Socket.new hs2 now).max_ping_timeout = (Socket.new hs now).max_ping_timeout) ∧
    (∀ t l : Nat,
      Socket.time_to_next_ping t l (Socket.new hs now).max_ping_timeout =
        Socket.time_to_next_ping t l 10) :=
  ⟨rfl, fun _ => rfl, fun _ _ => rfl⟩

/-- Claim C1 (divergence evidence): the elapsed branch of an
`enforce_timeout` step does yield `Err(PingTimeout)`, clear the
connected flag, and spawn on-close exactly once — but the sequence the
socket actually exposes is the bare `Socket::stream` (the generator is
built without `enforce_timeout`), which merely forwards decoded
packets: under `codec0`, whose decoder never fails, it never contains a
`PingTimeout` item no matter the inbound payloads. -/
theorem ping_timeout_never_in_exposed_stream :
    (Socket.enforce_timeout_step true RaceOutcome.elapsed =
      { yielded := some (Except.error Error.PingTimeout)
        connected := false
        events := [Event.onClose] }) ∧
    Socket.exposed_stream codec0 [] = [] ∧
    Socket.exposed_stream codec0 [Except.ok [1], Except.ok [2]] =
      [Except.ok (Packet.mk PacketId.Message [1]),
       Except.ok (Packet.mk PacketId.Message [2])] ∧
    (∀ payloads : List (Except Error (List Nat)),
      (∀ e : Error, Except.error e ∈ payloads → e ≠ Error.PingTimeout) →
      Except.error Error.PingTimeout ∉ Socket.exposed_stream codec0 payloads) := by
  refine ⟨rfl, rfl, rfl, ?_⟩
  intro payloads
  induction payloads with
  | nil => intro _ h; simp [Socket.exposed_stream, Socket.stream] at h
  | cons hd tl ih =>
      intro hin
      cases hd with
      | error e =>
          have he : e ≠ Error.PingTimeout := hin e (List.mem_cons_self _ _)
          simp [Socket.exposed_stream, Socket.stream, Ne.symm he]
      | ok bytes =>
          have htl := ih (fun e hmem => hin e (List.mem_cons_of_mem _ hmem))
          simp only [Socket.exposed_stream, Socket.stream, codec0] at htl ⊢
          simp [htl]

/-- Witness for C1's divergence theorem at a concrete payload list. -/
theorem ping_timeout_never_in_exposed_stream_witness :
    Except.error Error.PingTimeout ∉ Socket.exposed_stream codec0 [Except.ok [5]] :=
  ping_timeout_never_in_exposed_stream.2.2.2 [Except.ok [5]]
    (fun e hmem => by simp at hmem)

end Engineio
